import Mathlib

/-!
# Verification of the Maternal Health session client and messaging relay

A shallow embedding of the repository's session/token lifecycle manager
(the `ApiClient` class: `saveTokens`, `clearTokens`, `refreshAccessToken`,
`request`, `login`, `logout`) and of the relay server's socket handlers
(`join-room`, `leave-room`, `send-message`), together with theorems
settling the specification's claims about them.

JSON bodies are abstracted as strings; each `fetch` to the backend is
modelled by an environment value describing its outcome (a response with
`ok`/`status`/body, or a thrown network error), so the client code becomes
a pure function of its state and that environment.
-/

namespace MaternalHealth

/-- A backend session: the `{access_token, refresh_token}` pair carried in
login and refresh responses. -/
structure Session where
  access_token : String
  refresh_token : String
deriving DecidableEq

/-- The client's token state: the in-memory fields `accessToken` and
`refreshToken` of `ApiClient`, plus the durable storage slots keyed
`TOKEN_KEY`, `REFRESH_TOKEN_KEY` and `USER_KEY`. -/
structure ClientState where
  accessToken : Option String
  refreshToken : Option String
  storedAccess : Option String
  storedRefresh : Option String
  storedUser : Option String
deriving DecidableEq

/-- `ApiClient.saveTokens`: assigns both in-memory tokens from the session
and persists both to storage (`TOKEN_KEY`, `REFRESH_TOKEN_KEY`). -/
def saveTokens (s : ClientState) (sess : Session) : ClientState :=
  { s with
    accessToken := some sess.access_token
    refreshToken := some sess.refresh_token
    storedAccess := some sess.access_token
    storedRefresh := some sess.refresh_token }

/-- `ApiClient.clearTokens`: nulls both in-memory tokens and removes
`TOKEN_KEY`, `REFRESH_TOKEN_KEY` and `USER_KEY` from storage. -/
def clearTokens (_s : ClientState) : ClientState :=
  { accessToken := none
    refreshToken := none
    storedAccess := none
    storedRefresh := none
    storedUser := none }

/-- `ApiClient.saveUser`: writes the serialized user under `USER_KEY`. -/
def saveUser (s : ClientState) (u : String) : ClientState :=
  { s with storedUser := some u }

/-- Outcome of one `fetch` of an API endpoint: a response carrying `ok`,
`status` and a parsed JSON body, or a thrown network error. -/
inductive FetchOutcome where
  | resp (ok : Bool) (status : Nat) (body : String)
  | netFail
deriving DecidableEq

/-- Outcome of the `fetch` of `/api/auth/refresh`: a response carrying `ok`
and, when `ok`, `data.session`, or a thrown network error. -/
inductive RefreshOutcome where
  | resp (ok : Bool) (session : Session)
  | netFail
deriving DecidableEq

/-- One backend call issued by the client: a `fetch` of the requested
endpoint with the `Authorization` token attached at that moment (if any),
or a `fetch` of `/api/auth/refresh` carrying the refresh token. -/
inductive CallEv where
  | fetch (auth : Option String)
  | refreshFetch (refreshTok : String)
deriving DecidableEq

/-- The `{data, error}` shape returned by `ApiClient.request`. -/
structure ApiResult where
  data : Option String
  error : Option String
deriving DecidableEq

/-- The fixed error record built when `fetch` throws: the code returns
`error: 'Network error', message: 'Failed to connect to server'`. -/
def networkErrorBody : String := "Network error: Failed to connect to server"

/-- The `{data, error}` result a fetch outcome produces when it is taken
as the final response: body as data when `ok`, body as error otherwise,
the fixed network-error record when the fetch threw. -/
def fetchResult (o : FetchOutcome) : ApiResult :=
  match o with
  | .netFail => ⟨none, some networkErrorBody⟩
  | .resp ok _ body => if ok then ⟨some body, none⟩ else ⟨none, some body⟩

/-- `ApiClient.refreshAccessToken`: returns `false` at once when no refresh
token is held; otherwise POSTs the refresh token to `/api/auth/refresh`;
on a non-ok response or a thrown error it clears the tokens and returns
`false`; on success it saves the returned session and returns `true`.
Result: new state, the boolean result, and the backend calls made. -/
def refreshAccessToken (s : ClientState) (o : RefreshOutcome) :
    ClientState × Bool × List CallEv :=
  match s.refreshToken with
  | none => (s, false, [])
  | some rt =>
    match o with
    | .resp true sess => (saveTokens s sess, true, [.refreshFetch rt])
    | .resp false _ => (clearTokens s, false, [.refreshFetch rt])
    | .netFail => (clearTokens s, false, [.refreshFetch rt])

/-- Environment for one `ApiClient.request` call: outcome of the original
fetch, of the refresh call (when reached) and of the retry (when
reached). -/
structure FetchEnv where
  first : FetchOutcome
  refresh : RefreshOutcome
  retry : FetchOutcome

/-- `ApiClient.request`: attaches `Authorization` from the current access
token and issues the fetch; on a non-ok response with status 401 while a
refresh token is held, runs `refreshAccessToken` and, if it succeeded,
retries once with the new access token and returns the retry's result;
on a failed refresh returns the original error body; any other response
is returned as-is; a thrown fetch error yields the fixed network-error
result. Result: new state, the `{data, error}` result, and the backend
calls made in order. -/
def request (s : ClientState) (env : FetchEnv) :
    ClientState × ApiResult × List CallEv :=
  let auth := s.accessToken
  match env.first with
  | .netFail => (s, ⟨none, some networkErrorBody⟩, [.fetch auth])
  | .resp ok status body =>
    if ok then
      (s, ⟨some body, none⟩, [.fetch auth])
    else if status = 401 ∧ s.refreshToken.isSome then
      let r := refreshAccessToken s env.refresh
      let s' := r.1
      if r.2.1 then
        (s', fetchResult env.retry, .fetch auth :: r.2.2 ++ [.fetch s'.accessToken])
      else
        (s', ⟨none, some body⟩, .fetch auth :: r.2.2)
    else
      (s, ⟨none, some body⟩, [.fetch auth])

/-- `ApiClient.login`: issues the request; when the response data carries a
session, saves the tokens and the user. `parse` models reading
`result.data.session` / `result.data.user` out of the response body. -/
def login (s : ClientState) (env : FetchEnv)
    (parse : String → Option (Session × String)) : ClientState × ApiResult :=
  let r := request s env
  match r.2.1.data with
  | none => (r.1, r.2.1)
  | some body =>
    match parse body with
    | none => (r.1, r.2.1)
    | some (sess, u) => (saveUser (saveTokens r.1 sess) u, r.2.1)

/-- `ApiClient.logout`: issues the logout request, then clears the tokens
unconditionally and returns only the error field. -/
def logout (s : ClientState) (env : FetchEnv) : ClientState × Option String :=
  let r := request s env
  (clearTokens r.1, r.2.1.error)

/-- One token-state-mutating client operation, with the fetch environment
it runs under. -/
inductive TokenOp where
  | req (env : FetchEnv)
  | doLogin (env : FetchEnv) (parse : String → Option (Session × String))
  | doLogout (env : FetchEnv)

/-- Apply one client operation to the token state. -/
def applyOp (s : ClientState) (op : TokenOp) : ClientState :=
  match op with
  | .req env => (request s env).1
  | .doLogin env parse => (login s env parse).1
  | .doLogout env => (logout s env).1

/-- The state of a fresh client before any login: no tokens in memory or
storage. -/
def initialState : ClientState :=
  ⟨none, none, none, none, none⟩

/-- The tokens are paired: storage mirrors memory and the two tokens are
set or cleared together. -/
def pairedTokens (s : ClientState) : Prop :=
  s.storedAccess = s.accessToken ∧ s.storedRefresh = s.refreshToken ∧
  s.accessToken.isSome = s.refreshToken.isSome

instance (s : ClientState) : Decidable (pairedTokens s) := by
  unfold pairedTokens
  infer_instance

/-- Program counter of one in-flight `request` call in the interleaving
model: `start` before its fetch resolves, `resolved o` once the fetch and
body parse have resolved with outcome `o` but before the handler
continuation runs, `done r` after the call returned `r`. -/
inductive Phase where
  | start
  | resolved (o : FetchOutcome)
  | done (r : ApiResult)
deriving DecidableEq

/-- Shared state of several concurrent `request` calls: the one shared
`ApiClient` token state, each call's phase, and a count of the refresh
calls that reached the backend. -/
structure ConcState where
  client : ClientState
  threads : List Phase
  refreshFetches : Nat
deriving DecidableEq

/-- Run thread `i` of the interleaving model up to its next suspension
point. From `start`, its fetch resolves with the outcome `envFirst i`.
From `resolved o`, the whole handler continuation of `ApiClient.request`
runs: the `ok`/`401` checks against the shared state at that moment and,
on the 401 path, the full `refreshAccessToken` and the retry. Giving the
continuation this atomicity is the most favorable reading of the code,
which has no guard serializing concurrent refreshes. -/
def stepThread (envFirst : Nat → FetchOutcome) (envRefresh : RefreshOutcome)
    (envRetry : FetchOutcome) (st : ConcState) (i : Nat) : ConcState :=
  match st.threads.get? i with
  | none => st
  | some .start =>
    { st with threads := st.threads.set i (.resolved (envFirst i)) }
  | some (.resolved o) =>
    match o with
    | .netFail =>
      { st with threads := st.threads.set i (.done ⟨none, some networkErrorBody⟩) }
    | .resp ok status body =>
      if ok then
        { st with threads := st.threads.set i (.done ⟨some body, none⟩) }
      else if status = 401 ∧ st.client.refreshToken.isSome then
        let r := refreshAccessToken st.client envRefresh
        if r.2.1 then
          { client := r.1
            threads := st.threads.set i (.done (fetchResult envRetry))
            refreshFetches := st.refreshFetches + r.2.2.length }
        else
          { client := r.1
            threads := st.threads.set i (.done ⟨none, some body⟩)
            refreshFetches := st.refreshFetches + r.2.2.length }
      else
        { st with threads := st.threads.set i (.done ⟨none, some body⟩) }
  | some (.done _) => st

/-- Run a schedule (a list of thread indexes) of the interleaving model. -/
def runConc (envFirst : Nat → FetchOutcome) (envRefresh : RefreshOutcome)
    (envRetry : FetchOutcome) (sched : List Nat) (st : ConcState) : ConcState :=
  sched.foldl (stepThread envFirst envRefresh envRetry) st

/-- Two concurrent requests on a client holding a valid token pair. -/
def twoRequestsInit : ConcState :=
  ⟨⟨some "a0", some "r0", some "a0", some "r0", none⟩, [.start, .start], 0⟩

/-- The run in which both fetches resolve with status 401 before either
handler continuation runs, the backend answering every refresh call with
a fresh session. -/
def twoUnauthorizedRun : ConcState :=
  runConc (fun _ => .resp false 401 "unauthorized")
    (.resp true ⟨"a1", "r1"⟩) (.resp true 200 "retried-ok")
    [0, 1, 0, 1] twoRequestsInit

/-- A chat message row as persisted in the `chat_messages` table. -/
structure ChatMessage where
  id : String
  room_id : String
  sender_id : String
  content : String
  created_at : String
  read : Bool
deriving DecidableEq

/-- Outcome of `supabaseAuth.auth.getUser(token)`: a user identity when the
call returned no error and a user, else a failure (`authError` set or no
user). -/
inductive VerifyOutcome where
  | ok (userId : String)
  | err
deriving DecidableEq

/-- Outcome of the insert into `chat_messages`: the row was stored and came
back with a DB-assigned id, or the insert returned an error (in which case
nothing was written). -/
inductive PersistOutcome where
  | saved (id : String)
  | dbError
deriving DecidableEq

/-- An outbound socket emission performed by the `send-message` handler:
`socket.emit` of an `error` event to the originating socket, or
`io.to(roomId).emit` of a `receive-message` event to a room. -/
inductive Emission where
  | errorToSender (message : String)
  | receiveToRoom (roomId : String) (msg : ChatMessage)
deriving DecidableEq

/-- Result of one `send-message` event: the emissions made, the rows
persisted, and the number of insert attempts issued. -/
structure SendResult where
  emissions : List Emission
  persisted : List ChatMessage
  insertAttempts : Nat
deriving DecidableEq

/-- The `socket.on('send-message')` handler: verify the token; when the
verified identity is absent or differs from `senderId`, emit `error`
`Unauthorized` to the sender and stop; else build the row (`created_at`
from the server clock `now`, `read` false) and insert it; on an insert
error the thrown error is caught and `error` `Failed to send message` is
emitted to the sender; on success the saved row is broadcast as
`receive-message` to the room. `verify` is the outcome of
`supabaseAuth.auth.getUser(token)` and `persist` that of the insert. -/
def sendMessage (roomId message senderId : String)
    (verify : VerifyOutcome) (now : String) (persist : PersistOutcome) :
    SendResult :=
  match verify with
  | .err => ⟨[.errorToSender "Unauthorized"], [], 0⟩
  | .ok uid =>
    if uid ≠ senderId then
      ⟨[.errorToSender "Unauthorized"], [], 0⟩
    else
      match persist with
      | .dbError => ⟨[.errorToSender "Failed to send message"], [], 1⟩
      | .saved newId =>
        ⟨[.receiveToRoom roomId ⟨newId, roomId, senderId, message, now, false⟩],
         [⟨newId, roomId, senderId, message, now, false⟩], 1⟩

/-- Modelled from the spec: the Connection Registry is the socket.io room
adapter, which is not code under `src/` (the handlers only call
`socket.join` and `socket.leave`). Memberships form a set of
(socket id, room id) pairs: `join` adds the pair to the set, `leave`
removes it. Represented as a duplicate-free list of pairs. -/
abbrev Registry := List (String × String)

/-- `socket.join(roomId)`: add the membership pair unless already present. -/
def joinRoom (reg : Registry) (c r : String) : Registry :=
  if (c, r) ∈ reg then reg else (c, r) :: reg

/-- `socket.leave(roomId)`: remove the membership pair. -/
def leaveRoom (reg : Registry) (c r : String) : Registry :=
  reg.filter (fun p => decide (p ≠ (c, r)))

/-- The sockets currently in room `r`. -/
def membersOf (reg : Registry) (r : String) : List String :=
  (reg.filter (fun p => decide (p.2 = r))).map Prod.fst

/-- The sockets an emission is delivered to: an `error` event reaches the
originating socket only; a `receive-message` broadcast reaches every
socket currently in the room's membership set. -/
def deliveries (reg : Registry) (sender : String) (e : Emission) :
    List String :=
  match e with
  | .errorToSender _ => [sender]
  | .receiveToRoom r _ => membersOf reg r

/-- Claim C2: on a 401 response with a refresh token held and a successful
refresh, the client replaces both tokens together (and persists them),
retries the original request exactly once carrying the new access token,
and returns that single retry's result as the final result; the call
trace shows exactly one refresh and exactly one retry, so no second
refresh or retry happens even when the retry fails again. -/
theorem request_refresh_success_single_retry
    (s : ClientState) (body rt : String) (sess : Session)
    (retry : FetchOutcome) (hrt : s.refreshToken = some rt) :
    request s ⟨.resp false 401 body, .resp true sess, retry⟩ =
      (saveTokens s sess, fetchResult retry,
       [.fetch s.accessToken, .refreshFetch rt,
        .fetch (some sess.access_token)]) := by
  simp [request, refreshAccessToken, hrt, saveTokens]

/-- Witness for C2 at a concrete client state and environment. -/
theorem request_refresh_success_single_retry_witness :
    request ⟨some "a0", some "r0", some "a0", some "r0", none⟩
        ⟨.resp false 401 "denied", .resp true ⟨"a1", "r1"⟩,
         .resp true 200 "fine"⟩ =
      (saveTokens ⟨some "a0", some "r0", some "a0", some "r0", none⟩
         ⟨"a1", "r1"⟩,
       fetchResult (.resp true 200 "fine"),
       [.fetch (some "a0"), .refreshFetch "r0", .fetch (some "a1")]) :=
  request_refresh_success_single_retry _ "denied" "r0" ⟨"a1", "r1"⟩ _ rfl

/-- Claim C3: on a 401 response with a refresh token held and a failed
refresh (rejected or unreachable), the client clears the whole session:
both tokens and the cached user, in memory and in storage, and returns
the original unauthorized error body; no retry is issued. -/
theorem request_refresh_failure_clears_session
    (s : ClientState) (body rt : String) (ro : RefreshOutcome)
    (retry : FetchOutcome) (hrt : s.refreshToken = some rt)
    (hfail : ro = .netFail ∨ ∃ sess, ro = .resp false sess) :
    request s ⟨.resp false 401 body, ro, retry⟩ =
      (clearTokens s, ⟨none, some body⟩,
       [.fetch s.accessToken, .refreshFetch rt]) ∧
    (clearTokens s).accessToken = none ∧
    (clearTokens s).refreshToken = none ∧
    (clearTokens s).storedAccess = none ∧
    (clearTokens s).storedRefresh = none ∧
    (clearTokens s).storedUser = none := by
  rcases hfail with h | ⟨sess, h⟩ <;> subst h <;>
    simp [request, refreshAccessToken, hrt, clearTokens]

/-- Witness for C3 at a concrete client state, the refresh rejected. -/
theorem request_refresh_failure_clears_session_witness :
    request ⟨some "a0", some "r0", some "a0", some "r0", some "u"⟩
        ⟨.resp false 401 "denied", .resp false ⟨"x", "y"⟩,
         .resp true 200 "unused"⟩ =
      (clearTokens ⟨some "a0", some "r0", some "a0", some "r0", some "u"⟩,
       ⟨none, some "denied"⟩, [.fetch (some "a0"), .refreshFetch "r0"]) ∧
    (clearTokens ⟨some "a0", some "r0", some "a0", some "r0", some "u"⟩).accessToken = none ∧
    (clearTokens ⟨some "a0", some "r0", some "a0", some "r0", some "u"⟩).refreshToken = none ∧
    (clearTokens ⟨some "a0", some "r0", some "a0", some "r0", some "u"⟩).storedAccess = none ∧
    (clearTokens ⟨some "a0", some "r0", some "a0", some "r0", some "u"⟩).storedRefresh = none ∧
    (clearTokens ⟨some "a0", some "r0", some "a0", some "r0", some "u"⟩).storedUser = none :=
  request_refresh_failure_clears_session _ "denied" "r0" _ _ rfl
    (Or.inr ⟨⟨"x", "y"⟩, rfl⟩)

/-- Claim C9: a response that does not signal unauthorized is returned
as-is — body as data when ok, body as error otherwise — with the state
untouched and a call trace of exactly the one fetch, so the refresh
operation is never invoked; a thrown fetch (no response at all) yields
the fixed network-error record, again with no refresh and no state
change. -/
theorem request_passthrough_and_network_error
    (s : ClientState) (env : FetchEnv) :
    (∀ status body, env.first = .resp true status body →
        request s env = (s, ⟨some body, none⟩, [.fetch s.accessToken])) ∧
    (∀ status body, env.first = .resp false status body → status ≠ 401 →
        request s env = (s, ⟨none, some body⟩, [.fetch s.accessToken])) ∧
    (env.first = .netFail →
        request s env =
          (s, ⟨none, some networkErrorBody⟩, [.fetch s.accessToken])) := by
  refine ⟨?_, ?_, ?_⟩
  · intro status body h
    simp [request, h]
  · intro status body h h401
    simp [request, h, h401]
  · intro h
    simp [request, h]

/-- Witness for C9: a 404 error response passes through unchanged, and a
transport failure yields the network-error record. -/
theorem request_passthrough_and_network_error_witness :
    request ⟨some "a0", some "r0", some "a0", some "r0", none⟩
        ⟨.resp false 404 "nope", .resp true ⟨"x", "y"⟩, .netFail⟩ =
      (⟨some "a0", some "r0", some "a0", some "r0", none⟩,
       ⟨none, some "nope"⟩, [.fetch (some "a0")]) ∧
    request ⟨some "a0", some "r0", some "a0", some "r0", none⟩
        ⟨.netFail, .resp true ⟨"x", "y"⟩, .netFail⟩ =
      (⟨some "a0", some "r0", some "a0", some "r0", none⟩,
       ⟨none, some networkErrorBody⟩, [.fetch (some "a0")]) :=
  ⟨(request_passthrough_and_network_error _ _).2.1 404 "nope" rfl (by decide),
   (request_passthrough_and_network_error _ _).2.2 rfl⟩

/-- Claim C10: any refresh failure — including a transport failure where
the refresh call never reaches the backend — clears the entire stored
session (both tokens and the cached user slot) before the original
request returns its unauthorized error; a transport failure on the
original request, by contrast, leaves the client state untouched. -/
theorem refresh_transport_failure_destroys_session
    (s : ClientState) (body rt : String) (ro : RefreshOutcome)
    (retry retry2 : FetchOutcome) (hrt : s.refreshToken = some rt) :
    (request s ⟨.resp false 401 body, .netFail, retry⟩).1 = clearTokens s ∧
    (request s ⟨.resp false 401 body, .netFail, retry⟩).2.1 =
      ⟨none, some body⟩ ∧
    (refreshAccessToken s .netFail).1 = clearTokens s ∧
    (clearTokens s).storedUser = none ∧
    (request s ⟨.netFail, ro, retry2⟩).1 = s := by
  simp [request, refreshAccessToken, hrt, clearTokens]

/-- Witness for C10 at a concrete client state. -/
theorem refresh_transport_failure_destroys_session_witness :
    (request ⟨some "a0", some "r0", some "a0", some "r0", some "u"⟩
        ⟨.resp false 401 "denied", .netFail, .resp true 200 "x"⟩).1 =
      clearTokens ⟨some "a0", some "r0", some "a0", some "r0", some "u"⟩ ∧
    (request ⟨some "a0", some "r0", some "a0", some "r0", some "u"⟩
        ⟨.resp false 401 "denied", .netFail, .resp true 200 "x"⟩).2.1 =
      ⟨none, some "denied"⟩ ∧
    (refreshAccessToken ⟨some "a0", some "r0", some "a0", some "r0", some "u"⟩
        .netFail).1 =
      clearTokens ⟨some "a0", some "r0", some "a0", some "r0", some "u"⟩ ∧
    (clearTokens ⟨some "a0", some "r0", some "a0", some "r0", some "u"⟩).storedUser = none ∧
    (request ⟨some "a0", some "r0", some "a0", some "r0", some "u"⟩
        ⟨.netFail, .resp true ⟨"x", "y"⟩, .resp true 200 "x"⟩).1 =
      ⟨some "a0", some "r0", some "a0", some "r0", some "u"⟩ :=
  refresh_transport_failure_destroys_session _ "denied" "r0" _ _ _ rfl

/-- Claim C5: when token verification fails or the verified identity
differs from the supplied senderId, the handler emits exactly one
`error` event with message `Unauthorized`, delivered to the originating
socket only; nothing is persisted (no insert is even attempted) and no
broadcast is made. -/
theorem sendMessage_unauthorized_rejected
    (roomId message senderId now : String) (verify : VerifyOutcome)
    (persist : PersistOutcome) (reg : Registry) (sock : String)
    (h : verify = .err ∨ ∃ uid, verify = .ok uid ∧ uid ≠ senderId) :
    sendMessage roomId message senderId verify now persist =
      ⟨[.errorToSender "Unauthorized"], [], 0⟩ ∧
    deliveries reg sock (.errorToSender "Unauthorized") = [sock] := by
  constructor
  · rcases h with h | ⟨uid, h, hne⟩
    · subst h
      simp [sendMessage]
    · subst h
      simp [sendMessage, hne]
  · rfl

/-- Witness for C5: a token verifying as a different user than the claimed
sender is rejected to the sender only. -/
theorem sendMessage_unauthorized_rejected_witness :
    sendMessage "r1" "hello" "alice" (.ok "bob") "t0" (.saved "m1") =
      ⟨[.errorToSender "Unauthorized"], [], 0⟩ ∧
    deliveries [("s1", "r1"), ("s2", "r1")] "s1"
        (.errorToSender "Unauthorized") = ["s1"] :=
  sendMessage_unauthorized_rejected "r1" "hello" "alice" "t0" (.ok "bob")
    (.saved "m1") [("s1", "r1"), ("s2", "r1")] "s1"
    (Or.inr ⟨"bob", rfl, by decide⟩)

/-- Claim C4: a `receive-message` broadcast is emitted if and only if the
message row was persisted; when the insert fails after a successful
verification, the handler emits exactly one `Failed to send message`
error to the originating socket only, persists nothing, and broadcasts
nothing. -/
theorem sendMessage_broadcast_iff_persisted
    (roomId message senderId now : String) (verify : VerifyOutcome)
    (persist : PersistOutcome) (reg : Registry) (sock : String) :
    ((∃ rm m, Emission.receiveToRoom rm m ∈
        (sendMessage roomId message senderId verify now persist).emissions) ↔
      (sendMessage roomId message senderId verify now persist).persisted ≠ []) ∧
    (persist = .dbError →
      (sendMessage roomId message senderId verify now persist).persisted = []) ∧
    (verify = .ok senderId → persist = .dbError →
      sendMessage roomId message senderId verify now persist =
        ⟨[.errorToSender "Failed to send message"], [], 1⟩ ∧
      deliveries reg sock (.errorToSender "Failed to send message") = [sock]) := by
  refine ⟨?_, ?_, ?_⟩
  · cases verify with
    | err => simp [sendMessage]
    | ok uid =>
      by_cases hne : uid = senderId
      · subst hne
        cases persist <;> simp [sendMessage]
      · cases persist <;> simp [sendMessage, hne]
  · intro hp
    subst hp
    cases verify with
    | err => simp [sendMessage]
    | ok uid =>
      by_cases hne : uid = senderId
      · subst hne; simp [sendMessage]
      · simp [sendMessage, hne]
  · intro hv hp
    subst hv; subst hp
    exact ⟨by simp [sendMessage], rfl⟩

/-- Witness for C4: a failed insert with a valid token yields only the
failure error to the sender and no persisted row. -/
theorem sendMessage_broadcast_iff_persisted_witness :
    sendMessage "r1" "hello" "alice" (.ok "alice") "t0" .dbError =
      ⟨[.errorToSender "Failed to send message"], [], 1⟩ ∧
    deliveries [("s1", "r1"), ("s2", "r1")] "s1"
        (.errorToSender "Failed to send message") = ["s1"] :=
  (sendMessage_broadcast_iff_persisted "r1" "hello" "alice" "t0" (.ok "alice")
    .dbError [("s1", "r1"), ("s2", "r1")] "s1").2.2 rfl rfl

/-- Claim C6: with a token verifying as the sender and a successful
insert, the handler broadcasts exactly one `receive-message` event to
the room carrying the persisted row — DB-assigned id, server timestamp,
content identical to the sent content — and the broadcast is delivered
to every socket currently in the room's membership set, the sender's own
socket included when it is a member. -/
theorem sendMessage_persisted_broadcast_to_members
    (roomId message senderId now newId : String) (reg : Registry)
    (senderSock : String) (hmem : senderSock ∈ membersOf reg roomId) :
    sendMessage roomId message senderId (.ok senderId) now (.saved newId) =
      ⟨[.receiveToRoom roomId ⟨newId, roomId, senderId, message, now, false⟩],
       [⟨newId, roomId, senderId, message, now, false⟩], 1⟩ ∧
    deliveries reg senderSock
        (.receiveToRoom roomId ⟨newId, roomId, senderId, message, now, false⟩) =
      membersOf reg roomId ∧
    senderSock ∈ deliveries reg senderSock
        (.receiveToRoom roomId ⟨newId, roomId, senderId, message, now, false⟩) := by
  refine ⟨by simp [sendMessage], rfl, ?_⟩
  simpa [deliveries] using hmem

/-- Witness for C6: sockets s1 (the sender) and s2 are in room r1; the
persisted message is broadcast to both. -/
theorem sendMessage_persisted_broadcast_to_members_witness :
    sendMessage "r1" "hello" "alice" (.ok "alice") "t0" (.saved "m1") =
      ⟨[.receiveToRoom "r1" ⟨"m1", "r1", "alice", "hello", "t0", false⟩],
       [⟨"m1", "r1", "alice", "hello", "t0", false⟩], 1⟩ ∧
    deliveries [("s1", "r1"), ("s2", "r1")] "s1"
        (.receiveToRoom "r1" ⟨"m1", "r1", "alice", "hello", "t0", false⟩) =
      membersOf [("s1", "r1"), ("s2", "r1")] "r1" ∧
    "s1" ∈ deliveries [("s1", "r1"), ("s2", "r1")] "s1"
        (.receiveToRoom "r1" ⟨"m1", "r1", "alice", "hello", "t0", false⟩) :=
  sendMessage_persisted_broadcast_to_members "r1" "hello" "alice" "t0" "m1"
    [("s1", "r1"), ("s2", "r1")] "s1" (by decide)

/-- Claim C7: joining a room a second time leaves the membership set
exactly as after the first join, and leaving a room the socket is not a
member of leaves the registry unchanged. -/
theorem joinRoom_idempotent_leaveRoom_noop (reg : Registry) (c r : String) :
    joinRoom (joinRoom reg c r) c r = joinRoom reg c r ∧
    ((c, r) ∉ reg → leaveRoom reg c r = reg) := by
  constructor
  · by_cases h : (c, r) ∈ reg
    · simp [joinRoom, h]
    · simp [joinRoom, h]
  · intro h
    apply List.filter_eq_self.mpr
    intro a ha
    simp only [decide_eq_true_eq]
    rintro rfl
    exact h ha

/-- Witness for C7 at a concrete registry with socket c2 not in room r2. -/
theorem joinRoom_idempotent_leaveRoom_noop_witness :
    joinRoom (joinRoom [("c1", "r1")] "c2" "r2") "c2" "r2" =
      joinRoom [("c1", "r1")] "c2" "r2" ∧
    leaveRoom [("c1", "r1")] "c2" "r2" = [("c1", "r1")] :=
  ⟨(joinRoom_idempotent_leaveRoom_noop [("c1", "r1")] "c2" "r2").1,
   (joinRoom_idempotent_leaveRoom_noop [("c1", "r1")] "c2" "r2").2 (by decide)⟩

theorem pairedTokens_saveTokens (s : ClientState) (sess : Session) :
    pairedTokens (saveTokens s sess) := by
  simp [pairedTokens, saveTokens]

theorem pairedTokens_clearTokens (s : ClientState) :
    pairedTokens (clearTokens s) := by
  simp [pairedTokens, clearTokens]

theorem pairedTokens_saveUser (s : ClientState) (u : String)
    (h : pairedTokens s) : pairedTokens (saveUser s u) := by
  simpa [pairedTokens, saveUser] using h

/-- Every `request` leaves the token state unchanged, replaces both tokens
via `saveTokens`, or clears everything via `clearTokens`. -/
theorem request_state_shape (s : ClientState) (env : FetchEnv) :
    (request s env).1 = s ∨
      (∃ sess, (request s env).1 = saveTokens s sess) ∨
      (request s env).1 = clearTokens s := by
  rcases env with ⟨first, refresh, retry⟩
  cases first with
  | netFail => left; rfl
  | resp ok status body =>
    cases ok with
    | true => left; simp [request]
    | false =>
      by_cases h401 : status = 401
      · subst h401
        cases hr : s.refreshToken with
        | none => left; simp [request, hr]
        | some rt =>
          cases refresh with
          | netFail => right; right; simp [request, refreshAccessToken, hr]
          | resp rok sess =>
            cases rok with
            | true =>
              right; left
              exact ⟨sess, by simp [request, refreshAccessToken, hr]⟩
            | false => right; right; simp [request, refreshAccessToken, hr]
      · left; simp [request, h401]

theorem pairedTokens_request (s : ClientState) (env : FetchEnv)
    (h : pairedTokens s) : pairedTokens (request s env).1 := by
  rcases request_state_shape s env with heq | ⟨sess, heq⟩ | heq
  · rw [heq]; exact h
  · rw [heq]; exact pairedTokens_saveTokens s sess
  · rw [heq]; exact pairedTokens_clearTokens s

theorem pairedTokens_login (s : ClientState) (env : FetchEnv)
    (p : String → Option (Session × String)) (h : pairedTokens s) :
    pairedTokens (login s env p).1 := by
  unfold login
  cases hd : (request s env).2.1.data with
  | none => simpa [hd] using pairedTokens_request s env h
  | some body =>
    cases hp : p body with
    | none => simpa [hd, hp] using pairedTokens_request s env h
    | some su =>
      rcases su with ⟨sess, u⟩
      simpa [hd, hp] using
        pairedTokens_saveUser (saveTokens (request s env).1 sess) u
          (pairedTokens_saveTokens (request s env).1 sess)

theorem pairedTokens_applyOp (s : ClientState) (op : TokenOp)
    (h : pairedTokens s) : pairedTokens (applyOp s op) := by
  cases op with
  | req env => exact pairedTokens_request s env h
  | doLogin env p => exact pairedTokens_login s env p h
  | doLogout env => exact pairedTokens_clearTokens (request s env).1

theorem pairedTokens_foldl (ops : List TokenOp) (s : ClientState)
    (h : pairedTokens s) : pairedTokens (ops.foldl applyOp s) := by
  induction ops generalizing s with
  | nil => exact h
  | cons op rest ih => exact ih _ (pairedTokens_applyOp s op h)

/-- Claim C8: the stored session is never partially updated. Every
`request` either leaves the token state alone, replaces both tokens
together via `saveTokens`, or clears everything via `clearTokens`;
`logout` always ends in `clearTokens`; and along any sequence of client
operations from the fresh state, storage mirrors memory and the two
tokens are always set together or cleared together — no reachable state
holds exactly one of them. -/
theorem session_never_partially_updated (ops : List TokenOp) :
    (∀ s env, (request s env).1 = s ∨
        (∃ sess, (request s env).1 = saveTokens s sess) ∨
        (request s env).1 = clearTokens s) ∧
    (∀ s env, (logout s env).1 = clearTokens (request s env).1) ∧
    pairedTokens (List.foldl applyOp initialState ops) :=
  ⟨fun s env => request_state_shape s env,
   fun _ _ => rfl,
   pairedTokens_foldl ops initialState (by simp [pairedTokens, initialState])⟩

/-- Claim C1 fails on the code: `ApiClient.request` has no single-flight
guard, so each concurrent call that resolves 401 runs its own
`refreshAccessToken`. In the run where two concurrent requests both
resolve 401 before either handler continuation executes — even granting
each continuation full atomicity — two refresh calls reach the backend,
contradicting the claimed exactly-one refresh. -/
theorem two_concurrent_unauthorized_two_refreshes :
    twoUnauthorizedRun.refreshFetches = 2 ∧
    ¬ twoUnauthorizedRun.refreshFetches = 1 :=
  ⟨rfl, by decide⟩
